import Mathlib

/-!
Verification development for the quiz-app repository: a shallow embedding of
the quiz session coordinator (message handlers, quiz state machine, payload
projector, cache round trip, answer persistence) together with theorems that
settle the specification claims.

Sources embedded:
- src/app/api/handlers.py  (message handlers, payload projector, scoring)
- src/app/api/errors.py    (error taxonomy)
- src/app/api/models.py    (connection validation, dispatch_to_client)
- src/app/cache/models.py  (QuizData, cache round trip)
- src/app/cache/schemas.py (QuizState)
- src/app/db/schemas.py    (DbQuestion, AnswerOption, UserAnswer, DbSession, DbUser)
- src/app/db/models.py     (quiz_participants_answers repository)

Machine integers are modelled as Nat (timestamps, points, status codes);
Python dict `.get` results are modelled as Option; raised exceptions as an
explicit error type threaded through Except.

Parts of the repository referenced by src/app/api/handlers.py and
src/app/api/models.py are absent from the src snapshot (the QuizState members
WAITING_TO_START / QUESTION_TIMEDOUT / SHOW_RESULTS, the QuizData fields
`questions` / `current_question_end_timestamp`, the QuizData methods
end_quiz / next_question / get_results / timeout_question and the
one-argument start_quiz, and CacheManager.add_to_cache).  Those definitions
are modelled from the spec and carry a doc comment saying so; everything
else is translated from the source files named above.
-/

namespace QuizApp

/-- Modelled from the spec: src/app/cache/schemas.py declares only
{waiting, active, paused, ended}, but src/app/api/handlers.py and
src/app/api/models.py reference `QuizState.WAITING_TO_START`,
`QuizState.QUESTION_TIMEDOUT` and `QuizState.SHOW_RESULTS`, which are missing
from the snapshot.  The spec's state set
{WaitingToStart, Active, QuestionTimedOut, ShowResults, Ended} is used
(src's WAITING member is the spec's WaitingToStart). -/
inductive QuizState
  | WAITING_TO_START
  | ACTIVE
  | QUESTION_TIMEDOUT
  | SHOW_RESULTS
  | ENDED
deriving DecidableEq, Repr

/-- src/app/api/schemas.py: WsConnectionType. -/
inductive WsConnectionType
  | MODERATOR
  | PARTICIPANT
  | UNKNOWN
deriving DecidableEq, Repr

/-- src/app/db/schemas.py: QuestionType (only multiple_choice exists). -/
inductive QuestionType
  | multiple_choice
deriving DecidableEq, Repr

/-- src/app/api/errors.py: ErrorBase carries status_code, error_code, message. -/
structure ErrorBase where
  status_code : Nat
  error_code : Nat
  message : String
deriving DecidableEq, Repr

namespace Errors

/-- src/app/api/errors.py: Errors.MISSING_USER_ID_HEADER. -/
def MISSING_USER_ID_HEADER : ErrorBase :=
  { status_code := 400, error_code := 4001, message := "user_id header is missing" }

/-- src/app/api/errors.py: Errors.SESSION_NOT_FOUND. -/
def SESSION_NOT_FOUND : ErrorBase :=
  { status_code := 404, error_code := 4040, message := "Session not found" }

/-- src/app/api/errors.py: Errors.USER_FORBIDDEN. -/
def USER_FORBIDDEN : ErrorBase :=
  { status_code := 403, error_code := 4030, message := "User is not authorized" }

/-- src/app/api/errors.py: Errors.INVALID_MESSAGE_TYPE. -/
def INVALID_MESSAGE_TYPE : ErrorBase :=
  { status_code := 400, error_code := 4002, message := "Invalid message type" }

/-- src/app/api/errors.py: Errors.SESSION_CLOSED_FOR_NEW_PARTICIPANTS. -/
def SESSION_CLOSED_FOR_NEW_PARTICIPANTS : ErrorBase :=
  { status_code := 400, error_code := 4003, message := "Session is closed for new participants" }

/-- src/app/api/errors.py: Errors.ServerError. -/
def ServerError : ErrorBase :=
  { status_code := 500, error_code := 5000, message := "Internal Server Error" }

end Errors

/-- A raised Python exception, as the handlers can observe it:
an ErrorBase constant from src/app/api/errors.py, UserLeftException,
or one of the builtin / pydantic exceptions the handler bodies can raise
(IndexError from `[...][0]` on an empty list, AttributeError from an
attribute access on None, ValidationError from constructing a pydantic
model with a missing required field or an invalid enum / duplicate ids). -/
inductive PyExc
  | err : ErrorBase → PyExc
  | userLeft : PyExc
  | indexError : PyExc
  | attributeError : PyExc
  | validationError : PyExc
deriving DecidableEq, Repr

/-- src/app/db/schemas.py: AnswerOption. -/
structure AnswerOption where
  answer : String
  correct_answer : Bool
  answer_id : String
  question_id : String
  quiz_id : String
deriving DecidableEq, Repr

/-- src/app/db/schemas.py: AnswerOptions (a list of AnswerOption; its
model_validator requires the answer ids to be unique, checked where the
model is constructed). -/
structure AnswerOptions where
  answers : List AnswerOption
deriving DecidableEq, Repr

/-- src/app/db/schemas.py: DbQuestion.  `quiz_id` and `seconds_to_answer`
are Optional in the source (defaults None and 60). -/
structure DbQuestion where
  question_id : String
  question : String
  question_number : Nat
  points : Nat
  answers : AnswerOptions
  question_type : QuestionType
  quiz_id : Option String
  seconds_to_answer : Option Nat
deriving DecidableEq, Repr

/-- src/app/db/schemas.py: DbUser (create_date modelled as a Nat clock value). -/
structure DbUser where
  user_id : String
  username : String
  email : String
  create_date : Nat
deriving DecidableEq, Repr

/-- src/app/db/schemas.py: DbSession (datetimes modelled as Nat clock values). -/
structure DbSession where
  quiz_id : String
  room_id : String
  session_id : String
  moderator_id : String
  start_datetime : Nat
  end_datetime : Option Nat
deriving DecidableEq, Repr

/-- src/app/db/schemas.py: UserAnswer (the Participant Answer fact). -/
structure UserAnswer where
  user_id : String
  question_id : String
  answer_id : String
  timestamp : Nat
  session_id : String
  quiz_id : String
  points : Nat
  is_correct : Bool
deriving DecidableEq, Repr

/-- src/app/cache/models.py: QuizData.  The first five fields are the fields
of the source class.  `questions` and `current_question_end_timestamp` are
Modelled from the spec: src/app/api/handlers.py reads `quiz_data.questions`
(get_payload, answer_is_correct) and src/app/api/models.py reads
`quiz_data.current_question_end_timestamp` (quiz_timer), but the QuizData
class in the snapshot has neither field; the spec lists
`current_question_end_timestamp` as a Quiz State field and compares
`current_question_index` with `len(questions)`. -/
structure QuizData where
  session_id : String
  quiz_state : QuizState
  quiz_id : String
  current_question_number : Nat
  current_question : Option DbQuestion
  questions : List DbQuestion
  current_question_end_timestamp : Nat
deriving DecidableEq, Repr

/-- Modelled from the spec: `QuizData.start_quiz(current_timestamp)` as called
from src/app/api/handlers.py:48 takes the current timestamp; the snapshot's
cache/models.py start_quiz takes no argument, sets no deadline and is
uncallable from that call site.  Per the spec: `WaitingToStart` → `Active`
sets `current_question_index = 1`, loads question 1 and sets
`current_question_end_timestamp = now + question.seconds_to_answer` (the
pydantic default 60 stands in when seconds_to_answer is None); no other
transition by StartQuiz is listed, so from any other state the quiz state is
left untouched. -/
def QuizData.start_quiz (qd : QuizData) (current_timestamp : Nat) : QuizData :=
  if qd.quiz_state = QuizState.WAITING_TO_START then
    match qd.questions.find? (fun q => q.question_number == 1) with
    | some q =>
      { qd with
        quiz_state := QuizState.ACTIVE
        current_question_number := 1
        current_question := some q
        current_question_end_timestamp := current_timestamp + q.seconds_to_answer.getD 60 }
    | none => qd
  else qd

/-- Modelled from the spec: `QuizData.end_quiz()` called from
src/app/api/handlers.py:50 is absent from the snapshot's QuizData.
Per the spec: any state → `Ended`; `Ended` is terminal, so ending an already
ended quiz changes nothing. -/
def QuizData.end_quiz (qd : QuizData) : QuizData :=
  { qd with quiz_state := QuizState.ENDED }

/-- Modelled from the spec: `QuizData.next_question(current_timestamp)` called
from src/app/api/handlers.py:52 is absent from the snapshot's QuizData.
Per the spec: `Active`/`QuestionTimedOut` → `Active`, only if not on the last
question (Scenario C: on the last question the handler is a no-op for index
advancement); increments the index, loads the next question, resets the
deadline. -/
def QuizData.next_question (qd : QuizData) (current_timestamp : Nat) : QuizData :=
  if (qd.quiz_state = QuizState.ACTIVE ∨ qd.quiz_state = QuizState.QUESTION_TIMEDOUT)
      ∧ qd.current_question_number < qd.questions.length then
    match qd.questions.find? (fun q => q.question_number == qd.current_question_number + 1) with
    | some q =>
      { qd with
        quiz_state := QuizState.ACTIVE
        current_question_number := qd.current_question_number + 1
        current_question := some q
        current_question_end_timestamp := current_timestamp + q.seconds_to_answer.getD 60 }
    | none => qd
  else qd

/-- Modelled from the spec: `QuizData.get_results()` called from
src/app/api/handlers.py:54 is absent from the snapshot's QuizData.
Per the spec: `Active`/`QuestionTimedOut` → `ShowResults`, only legal when on
the last question; otherwise nothing happens. -/
def QuizData.get_results (qd : QuizData) : QuizData :=
  if (qd.quiz_state = QuizState.ACTIVE ∨ qd.quiz_state = QuizState.QUESTION_TIMEDOUT)
      ∧ qd.current_question_number = qd.questions.length then
    { qd with quiz_state := QuizState.SHOW_RESULTS }
  else qd

/-- Modelled from the spec: `QuizData.timeout_question()` called from
src/app/api/handlers.py:250 is absent from the snapshot's QuizData.
Per the spec: `Active` → `QuestionTimedOut`, the question is frozen (the
`state == Active` guard is in handle_timeout itself). -/
def QuizData.timeout_question (qd : QuizData) : QuizData :=
  { qd with quiz_state := QuizState.QUESTION_TIMEDOUT }

/-- The `choice` object of an inbound message
(src spec section 6: `{"option_type", "option", "answer-id", "question-id",
"quiz-id"}`); every key access in the handlers goes through `.get`, so every
field is Option.  The hyphenated JSON keys answer-id / question-id / quiz-id
are the fields answer_id / question_id / quiz_id here. -/
structure Choice where
  option_type : Option String
  option : Option String
  answer_id : Option String
  question_id : Option String
  quiz_id : Option String
deriving DecidableEq, Repr

/-- An inbound message: `{"type": ..., "choice": {...}}`; both keys are read
with `.get` in src/app/api/handlers.py. -/
structure Message where
  type : Option String
  choice : Option Choice
deriving DecidableEq, Repr

/-- The result triple of a message handler:
(updated quiz data, moderator_event, participant_event). -/
abbrev HandlerResult := QuizData × Option String × Option String

/-- The `except Exception: raise Errors.ServerError` wrapper that ends
handle_moderators_choice, handle_timeout and handle_message in
src/app/api/handlers.py: every exception raised by the body is caught,
logged and replaced by Errors.ServerError. -/
def wrapServer {α : Type} : Except PyExc α → Except PyExc α
  | Except.ok a => Except.ok a
  | Except.error _ => Except.error (PyExc.err Errors.ServerError)

/-- The wrapper ending handle_participent_choice in src/app/api/handlers.py:
`except UserLeftException: raise UserLeftException` re-raises the user-left
signal, `except Exception: raise Errors.ServerError` replaces everything
else. -/
def wrapServerKeepUserLeft {α : Type} : Except PyExc α → Except PyExc α
  | Except.ok a => Except.ok a
  | Except.error PyExc.userLeft => Except.error PyExc.userLeft
  | Except.error _ => Except.error (PyExc.err Errors.ServerError)

/-- src/app/api/handlers.py:257 answer_is_correct.  A mismatching quiz-id
(including a missing one, since `str != None` is True) returns False at once.
Then `[q for q in quiz_data.questions if q.question_id == choice.get("question-id")][0]`
raises IndexError when no question matches; otherwise the first matching
question is scanned for the submitted answer-id, returning that option's
correct_answer, or False when no option matches. -/
def answer_is_correct (selected_choice : Choice) (quiz_data : QuizData) :
    Except PyExc Bool :=
  if selected_choice.quiz_id ≠ some quiz_data.quiz_id then
    Except.ok false
  else
    match quiz_data.questions.filter
        (fun q => some q.question_id == selected_choice.question_id) with
    | [] => Except.error PyExc.indexError
    | q :: _ =>
      match q.answers.answers.find?
          (fun a => some a.answer_id == selected_choice.answer_id) with
      | some a => Except.ok a.correct_answer
      | none => Except.ok false

/-- src/app/api/handlers.py:27 handle_moderators_choice, body of the try
block: a non-moderator caller raises Errors.USER_FORBIDDEN; a missing choice
object raises AttributeError at `choice.get`; an `option_type == "cmd"`
dispatches on the option string to the QuizData transition, any other
option_type or option leaves the quiz data untouched. -/
def handle_moderators_choice_body (message : Message) (quiz_data : QuizData)
    (connection_type : WsConnectionType) (_user : DbUser)
    (current_timestamp : Nat) : Except PyExc HandlerResult :=
  if connection_type ≠ WsConnectionType.MODERATOR then
    Except.error (PyExc.err Errors.USER_FORBIDDEN)
  else
    match message.choice with
    | none => Except.error PyExc.attributeError
    | some choice =>
      let qd :=
        if choice.option_type = some "cmd" then
          if choice.option = some "Start Quiz" then
            quiz_data.start_quiz current_timestamp
          else if choice.option = some "End Quiz" then
            quiz_data.end_quiz
          else if choice.option = some "Next Question" then
            quiz_data.next_question current_timestamp
          else if choice.option = some "Go To Results" then
            quiz_data.get_results
          else quiz_data
        else quiz_data
      Except.ok (qd, none, none)

/-- src/app/api/handlers.py:27 handle_moderators_choice: the try body wrapped
by `except Exception: raise Errors.ServerError` — note this wrapper also
catches the Errors.USER_FORBIDDEN the body itself raises. -/
def handle_moderators_choice (message : Message) (quiz_data : QuizData)
    (connection_type : WsConnectionType) (user : DbUser)
    (current_timestamp : Nat) : Except PyExc HandlerResult :=
  wrapServer
    (handle_moderators_choice_body message quiz_data connection_type user current_timestamp)

/-- src/app/db/models.py:453 QuizParticipantsAnswersRepository.insert_users_answer
against the quiz_participants_answers table created at src/app/db/models.py:432
with PRIMARY KEY (session_id, user_id, question_id).  The table is the list of
rows; inserting a row whose primary key is already present makes the INSERT
raise, which the function's `except Exception` catches and logs, leaving the
table unchanged; in every case the function returns normally. -/
def insert_users_answer (table : List UserAnswer) (user_answer : UserAnswer) :
    List UserAnswer :=
  if table.any (fun r =>
      r.session_id == user_answer.session_id
        && r.user_id == user_answer.user_id
        && r.question_id == user_answer.question_id) then
    table
  else
    table ++ [user_answer]

/-- src/app/api/handlers.py:61 handle_participent_choice: a non-participant
caller raises Errors.USER_FORBIDDEN; `cmd`/`Leave Quiz` raises
UserLeftException (re-raised by the handler's own except clause); an
`option_type == "answer"` scores the choice with answer_is_correct, builds a
UserAnswer (AttributeError when current_question is None at
`quiz_data.current_question.points`, pydantic ValidationError when
question-id or answer-id is missing), inserts it through
insert_users_answer, and reports the moderator event; everything else
returns the quiz data untouched.  The answers table is threaded explicitly;
every exception other than UserLeftException surfaces as Errors.ServerError. -/
def handle_participent_choice (message : Message) (quiz_data : QuizData)
    (connection_type : WsConnectionType) (user : DbUser)
    (current_timestamp : Nat) (answers_table : List UserAnswer) :
    Except PyExc HandlerResult × List UserAnswer :=
  let body : Except PyExc HandlerResult × List UserAnswer :=
    if connection_type ≠ WsConnectionType.PARTICIPANT then
      (Except.error (PyExc.err Errors.USER_FORBIDDEN), answers_table)
    else
      match message.choice with
      | none => (Except.error PyExc.attributeError, answers_table)
      | some choice =>
        if choice.option_type = some "cmd" ∧ choice.option = some "Leave Quiz" then
          (Except.error PyExc.userLeft, answers_table)
        else if choice.option_type = some "answer" then
          match answer_is_correct choice quiz_data with
          | Except.error e => (Except.error e, answers_table)
          | Except.ok correct_answer =>
            match quiz_data.current_question with
            | none => (Except.error PyExc.attributeError, answers_table)
            | some current_q =>
              match choice.question_id, choice.answer_id with
              | some qid, some aid =>
                let ua : UserAnswer :=
                  { user_id := user.user_id
                    question_id := qid
                    answer_id := aid
                    timestamp := current_timestamp
                    session_id := quiz_data.session_id
                    quiz_id := quiz_data.quiz_id
                    points := current_q.points
                    is_correct := correct_answer }
                (Except.ok (quiz_data,
                    some ("Participant " ++ user.user_id ++ " answered question"), none),
                  insert_users_answer answers_table ua)
              | _, _ => (Except.error PyExc.validationError, answers_table)
        else
          (Except.ok (quiz_data, none, none), answers_table)
  (wrapServerKeepUserLeft body.1, body.2)

/-- src/app/api/handlers.py:234 handle_timeout: a non-moderator caller raises
Errors.USER_FORBIDDEN (swallowed into ServerError by the wrapper); when the
quiz is Active the question is timed out, otherwise nothing changes. -/
def handle_timeout (_message : Message) (quiz_data : QuizData)
    (connection_type : WsConnectionType) (_user : DbUser)
    (_current_timestamp : Nat) : Except PyExc HandlerResult :=
  let body : Except PyExc HandlerResult :=
    if connection_type ≠ WsConnectionType.MODERATOR then
      Except.error (PyExc.err Errors.USER_FORBIDDEN)
    else
      let qd :=
        if quiz_data.quiz_state = QuizState.ACTIVE then
          quiz_data.timeout_question
        else quiz_data
      Except.ok (qd, none, none)
  wrapServer body

/-- src/app/api/handlers.py:108 handle_message: dispatches on the message's
declared type through the MESSAGE_TYPES_DATA_FUNCTION_MAPPING registry, whose
registered keys are exactly "moderator-choice", "participant-choice" and
"timeout"; an unregistered type raises Errors.INVALID_MESSAGE_TYPE.  The
whole dispatch sits in a try whose `except Exception: raise Errors.ServerError`
replaces every escaping exception — the INVALID_MESSAGE_TYPE and any
UserLeftException included — with Errors.ServerError. -/
def handle_message (message : Message) (quiz_data : QuizData)
    (connection_type : WsConnectionType) (user : DbUser)
    (current_timestamp : Nat) (answers_table : List UserAnswer) :
    Except PyExc HandlerResult × List UserAnswer :=
  let dispatched : Except PyExc HandlerResult × List UserAnswer :=
    if message.type = some "moderator-choice" then
      (handle_moderators_choice message quiz_data connection_type user current_timestamp,
        answers_table)
    else if message.type = some "participant-choice" then
      handle_participent_choice message quiz_data connection_type user
        current_timestamp answers_table
    else if message.type = some "timeout" then
      (handle_timeout message quiz_data connection_type user current_timestamp,
        answers_table)
    else
      (Except.error (PyExc.err Errors.INVALID_MESSAGE_TYPE), answers_table)
  (wrapServer dispatched.1, dispatched.2)

/-- The quiz state an observer finds after a handler ran: the returned quiz
data when the handler succeeded, the original (untouched — checked per branch
against the source: no handler path mutates the quiz state before raising)
when it raised. -/
def handledQuizData (r : Except PyExc HandlerResult) (orig : QuizData) : QuizData :=
  match r with
  | Except.ok (qd, _, _) => qd
  | Except.error _ => orig

/-- The dict produced by AnswerOption.model_dump_json
(src/app/db/schemas.py:119): all five fields are dumped. -/
structure AnswerOptionDump where
  answer : String
  correct_answer : Bool
  answer_id : String
  question_id : String
  quiz_id : String
deriving DecidableEq, Repr

/-- src/app/db/schemas.py:119 AnswerOption.model_dump_json. -/
def AnswerOption.model_dump_json (a : AnswerOption) : AnswerOptionDump :=
  { answer := a.answer
    correct_answer := a.correct_answer
    answer_id := a.answer_id
    question_id := a.question_id
    quiz_id := a.quiz_id }

/-- src/app/db/schemas.py:136 AnswerOptions.model_dump_json: the list of
per-option dicts. -/
def AnswerOptions.model_dump_json (as : AnswerOptions) : List AnswerOptionDump :=
  as.answers.map AnswerOption.model_dump_json

/-- The dict produced by DbQuestion.model_dump_json
(src/app/db/schemas.py:190): the dumped keys are question_id, question,
question_number, points, answers, question_type and seconds_to_answer —
the question's quiz_id is NOT dumped. -/
structure DbQuestionDump where
  question_id : String
  question : String
  question_number : Nat
  points : Nat
  answers : List AnswerOptionDump
  question_type : QuestionType
  seconds_to_answer : Option Nat
deriving DecidableEq, Repr

/-- src/app/db/schemas.py:190 DbQuestion.model_dump_json. -/
def DbQuestion.model_dump_json (q : DbQuestion) : DbQuestionDump :=
  { question_id := q.question_id
    question := q.question
    question_number := q.question_number
    points := q.points
    answers := q.answers.model_dump_json
    question_type := q.question_type
    seconds_to_answer := q.seconds_to_answer }

/-- src/app/db/schemas.py:201 DbQuestion.client_model_dump_json: the
participant-facing dict; it has NO answers key at all (and still no quiz_id). -/
structure DbQuestionClientDump where
  question_id : String
  question : String
  question_number : Nat
  points : Nat
  question_type : QuestionType
  seconds_to_answer : Option Nat
deriving DecidableEq, Repr

/-- src/app/db/schemas.py:201 DbQuestion.client_model_dump_json. -/
def DbQuestion.client_model_dump_json (q : DbQuestion) : DbQuestionClientDump :=
  { question_id := q.question_id
    question := q.question
    question_number := q.question_number
    points := q.points
    question_type := q.question_type
    seconds_to_answer := q.seconds_to_answer }

/-- True when the answer ids of the dumped options are pairwise distinct:
the AnswerOptions model_validator (src/app/db/schemas.py:147) re-runs when
DbQuestion.get_from_cache rebuilds the model and raises on a duplicate id. -/
def answerIdsUnique : List AnswerOptionDump → Bool
  | [] => true
  | a :: rest => (!(rest.map (fun b => b.answer_id)).contains a.answer_id)
      && answerIdsUnique rest

/-- src/app/db/schemas.py:235 DbQuestion.get_from_cache: rebuilds a
DbQuestion from the cached dict.  No quiz_id is passed, so the rebuilt
question's quiz_id is the pydantic default None.  Rebuilding the
AnswerOptions re-runs its unique-ids validator, so this is only the ok
branch; the caller checks answerIdsUnique. -/
def DbQuestion.get_from_cache (d : DbQuestionDump) : DbQuestion :=
  { question_id := d.question_id
    question := d.question
    question_number := d.question_number
    points := d.points
    answers := { answers := d.answers.map (fun a =>
      { answer := a.answer
        correct_answer := a.correct_answer
        answer_id := a.answer_id
        question_id := a.question_id
        quiz_id := a.quiz_id }) }
    question_type := d.question_type
    quiz_id := none
    seconds_to_answer := d.seconds_to_answer }

/-- The dict produced by QuizData.model_dump_json
(src/app/cache/models.py:181): session_id, quiz_state, quiz_id,
current_question_number and the nested current_question dump.  The
`questions` and `current_question_end_timestamp` components are Modelled
from the spec ("Round-trip: serializing and deserializing Quiz State through
the Store preserves all fields including nested question/answer data"): the
snapshot's QuizData lacks both fields, so their serialization is modelled as
carrying them verbatim. -/
structure QuizDataDump where
  session_id : String
  quiz_state : QuizState
  quiz_id : String
  current_question_number : Nat
  current_question : Option DbQuestionDump
  questions : List DbQuestion
  current_question_end_timestamp : Nat
deriving DecidableEq, Repr

/-- src/app/cache/models.py:181 QuizData.model_dump_json. -/
def QuizData.model_dump_json (qd : QuizData) : QuizDataDump :=
  { session_id := qd.session_id
    quiz_state := qd.quiz_state
    quiz_id := qd.quiz_id
    current_question_number := qd.current_question_number
    current_question := qd.current_question.map DbQuestion.model_dump_json
    questions := qd.questions
    current_question_end_timestamp := qd.current_question_end_timestamp }

/-- The participant-facing dict produced by QuizData.client_model_dump_json
(src/app/cache/models.py:194): the same five source fields with the current
question redacted through DbQuestion.client_model_dump_json; it carries no
questions list and no answers. -/
structure QuizDataClientDump where
  session_id : String
  quiz_state : QuizState
  quiz_id : String
  current_question_number : Nat
  current_question : Option DbQuestionClientDump
deriving DecidableEq, Repr

/-- src/app/cache/models.py:194 QuizData.client_model_dump_json. -/
def QuizData.client_model_dump_json (qd : QuizData) : QuizDataClientDump :=
  { session_id := qd.session_id
    quiz_state := qd.quiz_state
    quiz_id := qd.quiz_id
    current_question_number := qd.current_question_number
    current_question := qd.current_question.map DbQuestion.client_model_dump_json }

namespace CacheManager

/-- src/app/cache/models.py:117 CacheManager.get_quiz_data, on a cache entry
that is present: json-decodes the stored dict (json.dumps/json.loads of a
plain dict is the identity, so the dict itself is taken) and rebuilds the
QuizData, the current question through DbQuestion.get_from_cache.  Rebuilding
a question with duplicate answer ids makes the AnswerOptions validator raise,
which get_quiz_data's except turns into a raised server error. -/
def get_quiz_data (d : QuizDataDump) : Except PyExc QuizData :=
  match d.current_question with
  | none =>
    Except.ok
      { session_id := d.session_id
        quiz_state := d.quiz_state
        quiz_id := d.quiz_id
        current_question_number := d.current_question_number
        current_question := none
        questions := d.questions
        current_question_end_timestamp := d.current_question_end_timestamp }
  | some qdump =>
    if answerIdsUnique qdump.answers then
      Except.ok
        { session_id := d.session_id
          quiz_state := d.quiz_state
          quiz_id := d.quiz_id
          current_question_number := d.current_question_number
          current_question := some (DbQuestion.get_from_cache qdump)
          questions := d.questions
          current_question_end_timestamp := d.current_question_end_timestamp }
    else
      Except.error (PyExc.err Errors.ServerError)

/-- Writing a Quiz State into the Store (CacheManager.update_quiz_data,
src/app/cache/models.py:91, stores json.dumps(qd.model_dump_json())) and
reading it back (CacheManager.get_quiz_data, src/app/cache/models.py:117). -/
def storeRoundTrip (qd : QuizData) : Except PyExc QuizData :=
  get_quiz_data qd.model_dump_json

/-- Modelled from the spec: `cache_manager.add_to_cache(db_session,
quiz_questions)` called at src/app/api/models.py:68 is absent from the
snapshot's CacheManager; modelled after CacheManager.add_session_data_to_cache
(src/app/cache/models.py:67), which always initializes and stores a fresh
Quiz State — state WaitingToStart (src's WAITING member), question index 0,
no current question — extended to carry the quiz's questions, per the spec's
"initializes (or reuses) the session's Quiz State in the State Store". -/
def add_to_cache (session_data : DbSession) (quiz_questions : List DbQuestion) :
    QuizData :=
  { session_id := session_data.session_id
    quiz_state := QuizState.WAITING_TO_START
    quiz_id := session_data.quiz_id
    current_question_number := 0
    current_question := none
    questions := quiz_questions
    current_question_end_timestamp := 0 }

end CacheManager

/-- One entry of a moderator/participant menu in an outbound payload:
`{"option", "option_type"}`, plus the answer-id / quiz-id / question-id keys
carried by the answer options of the Active participant menu
(src/app/api/handlers.py:164). -/
structure MenuOption where
  option : String
  option_type : String
  answer_id : Option String
  quiz_id : Option String
  question_id : Option String
deriving DecidableEq, Repr

/-- A plain command menu entry `{"option": s, "option_type": "cmd"}`. -/
def cmdOption (s : String) : MenuOption :=
  { option := s, option_type := "cmd", answer_id := none, quiz_id := none,
    question_id := none }

/-- The outbound payload dict built by get_payload
(src/app/api/handlers.py:136): the union of the keys every branch sets. -/
structure Payload where
  moderator_display_text : String
  participant_display_text : String
  moderator_menu : List MenuOption
  participant_menu : List MenuOption
  moderator_event : Option String
  participant_event : Option String
  quiz_data : QuizDataDump
  type : String
deriving DecidableEq, Repr

/-- src/app/api/handlers.py:274 get_active_mod_menu. -/
def get_active_mod_menu (last_question : Bool) : List MenuOption :=
  if last_question then
    [cmdOption "Go To Results", cmdOption "End Quiz"]
  else
    [cmdOption "Next Question", cmdOption "End Quiz"]

/-- Modelled from the spec: `quiz_data.pretty_print_results()` used by
get_payload's ShowResults branch (src/app/api/handlers.py:218) is absent from
the snapshot's QuizData; only the surrounding header text is fixed by the
source, so the rendered results body is modelled as empty (no claim depends
on it). -/
def QuizData.pretty_print_results (_qd : QuizData) : String := ""

/-- src/app/api/handlers.py:136 get_payload: one payload shape per quiz
state.  The Active branch reads `quiz_data.current_question.answers` and
raises AttributeError when current_question is None; the function's except
clause turns any exception into a raised websocket-close built from
Errors.ServerError. -/
def get_payload (quiz_data : QuizData) (moderator_event : Option String)
    (participant_event : Option String) : Except PyExc Payload :=
  let body : Except PyExc Payload :=
    match quiz_data.quiz_state with
    | QuizState.WAITING_TO_START =>
      Except.ok
        { moderator_display_text := "Quiz is waiting to start."
          participant_display_text := "Quiz is waiting to start."
          moderator_menu := [cmdOption "Start Quiz", cmdOption "End Quiz"]
          participant_menu := [cmdOption "Leave Quiz"]
          moderator_event := moderator_event
          participant_event := participant_event
          quiz_data := quiz_data.model_dump_json
          type := "update" }
    | QuizState.ACTIVE =>
      match quiz_data.current_question with
      | none => Except.error PyExc.attributeError
      | some current_q =>
        let last_question :=
          quiz_data.current_question_number == quiz_data.questions.length
        let options := current_q.answers.answers.map (fun a =>
          { option := a.answer
            option_type := "answer"
            answer_id := some a.answer_id
            quiz_id := some a.quiz_id
            question_id := some a.question_id : MenuOption })
        let display := "Quiz is active.\nQuestion "
          ++ toString quiz_data.current_question_number
          ++ "\nQuestion: " ++ current_q.question
        Except.ok
          { moderator_display_text := display
            participant_display_text := display
            moderator_menu := get_active_mod_menu last_question
            participant_menu := options ++ [cmdOption "Leave Quiz"]
            moderator_event := moderator_event
            participant_event := participant_event
            quiz_data := quiz_data.model_dump_json
            type := "update" }
    | QuizState.QUESTION_TIMEDOUT =>
      let last_question :=
        quiz_data.current_question_number == quiz_data.questions.length
      Except.ok
        { moderator_display_text := "Question timed out."
          participant_display_text := "Question timed out."
          moderator_menu := get_active_mod_menu last_question
          participant_menu := [cmdOption "Leave Quiz"]
          moderator_event := moderator_event
          participant_event := participant_event
          quiz_data := quiz_data.model_dump_json
          type := "update" }
    | QuizState.ENDED =>
      Except.ok
        { moderator_display_text := "Quiz Ended."
          participant_display_text := "Quiz Ended."
          moderator_menu := [cmdOption "End Quiz"]
          participant_menu := [cmdOption "Leave Quiz"]
          moderator_event := moderator_event
          participant_event := participant_event
          quiz_data := quiz_data.model_dump_json
          type := "end" }
    | QuizState.SHOW_RESULTS =>
      let res_string := "Quiz is over\n Results:\n" ++ quiz_data.pretty_print_results
      Except.ok
        { moderator_display_text := res_string
          participant_display_text := res_string
          moderator_menu := [cmdOption "End Quiz"]
          participant_menu := [cmdOption "Leave Quiz"]
          moderator_event := moderator_event
          participant_event := participant_event
          quiz_data := quiz_data.model_dump_json
          type := "update" }
  wrapServer body

/-- What the client of one connection receives: the payload dict after
WebSocketManager.dispatch_to_client (src/app/api/models.py:229) mutated it —
a "quiz-state" key holding the redacted client view, added only when the
payload's type is "update", and a "timestamp" key. -/
structure ClientPayload where
  payload : Payload
  quiz_state_view : Option QuizDataClientDump
  timestamp : Nat
deriving DecidableEq, Repr

/-- src/app/api/models.py:229 WebSocketManager.dispatch_to_client:
`if payload.get("type") == "update": payload["quiz-state"] =
self.quiz_data.client_model_dump_json()`, then the timestamp is stamped and
the payload is sent. -/
def dispatch_to_client (payload : Payload) (quiz_data : QuizData)
    (timestamp : Nat) : ClientPayload :=
  { payload := payload
    quiz_state_view :=
      if payload.type = "update" then some quiz_data.client_model_dump_json
      else none
    timestamp := timestamp }

/-- src/app/api/schemas.py WsConnectionType is a StrEnum:
`WsConnectionType(role)` with a role header that is absent or not one of the
three member values raises ValueError. -/
def WsConnectionType.ofHeader : Option String → Except PyExc WsConnectionType
  | some "moderator" => Except.ok WsConnectionType.MODERATOR
  | some "participant" => Except.ok WsConnectionType.PARTICIPANT
  | some "unknown" => Except.ok WsConnectionType.UNKNOWN
  | _ => Except.error PyExc.validationError

/-- src/app/api/models.py:43
WebSocketManager.validate_connection_and_initialize_cache.  Its inputs are
the two handshake headers and the results of the external lookups it
performs: `db_manager.quiz_sessions.get_session(session_id)` (None when the
session does not exist), the session quiz's questions, and the session's
current Store entry (None when absent — src's CacheManager.get_quiz_data
raises a server error in that case, so the participant branch's
`if self.quiz_data is None` check is unreachable).  On success the source
sets `self.quiz_data` and returns True; the set quiz data is returned here.
The `except Exception as e: raise e` clause re-raises unchanged, so every
ErrorBase surfaces as itself.  Note the `state != WaitingToStart` refusal
sits after BOTH role branches, but a moderator's branch has just stored a
fresh WaitingToStart state, so it can only refuse participants.  A caller
with role "unknown" reaches `self.quiz_data.quiz_state` with quiz_data still
None and raises AttributeError. -/
def validate_connection_and_initialize_cache (user_id_header : Option String)
    (role_header : Option String) (db_session : Option DbSession)
    (quiz_questions : List DbQuestion) (cached : Option QuizData) :
    Except PyExc QuizData := do
  let connection_type ← WsConnectionType.ofHeader role_header
  match user_id_header with
  | none => Except.error (PyExc.err Errors.MISSING_USER_ID_HEADER)
  | some user_id => do
    let quiz_data ←
      if connection_type = WsConnectionType.MODERATOR then
        match db_session with
        | none => Except.error (PyExc.err Errors.SESSION_NOT_FOUND)
        | some s =>
          if s.moderator_id ≠ user_id then
            Except.error (PyExc.err Errors.USER_FORBIDDEN)
          else
            Except.ok (CacheManager.add_to_cache s quiz_questions)
      else if connection_type = WsConnectionType.PARTICIPANT then
        match cached with
        | none => Except.error (PyExc.err Errors.ServerError)
        | some qd => Except.ok qd
      else
        Except.error PyExc.attributeError
    if quiz_data.quiz_state ≠ QuizState.WAITING_TO_START then
      Except.error (PyExc.err Errors.SESSION_CLOSED_FOR_NEW_PARTICIPANTS)
    else
      Except.ok quiz_data

/-! Concrete fixtures used by witnesses and counterexamples: a two-question
quiz "quiz-1" running in session "s-1". -/

/-- A correct answer option of question q1. -/
def exAnswerA : AnswerOption :=
  { answer := "Red", correct_answer := true, answer_id := "a1",
    question_id := "q1", quiz_id := "quiz-1" }

/-- A wrong answer option of question q1. -/
def exAnswerB : AnswerOption :=
  { answer := "Blue", correct_answer := false, answer_id := "a2",
    question_id := "q1", quiz_id := "quiz-1" }

/-- Question 1 of quiz "quiz-1". -/
def exQuestion1 : DbQuestion :=
  { question_id := "q1", question := "Pick a color", question_number := 1,
    points := 10, answers := { answers := [exAnswerA, exAnswerB] },
    question_type := QuestionType.multiple_choice, quiz_id := some "quiz-1",
    seconds_to_answer := some 30 }

/-- Question 2 of quiz "quiz-1". -/
def exQuestion2 : DbQuestion :=
  { question_id := "q2", question := "Pick a number", question_number := 2,
    points := 5,
    answers := { answers :=
      [{ answer := "One"
         correct_answer := true
         answer_id := "b1"
         question_id := "q2"
         quiz_id := "quiz-1" },
       { answer := "Two"
         correct_answer := false
         answer_id := "b2"
         question_id := "q2"
         quiz_id := "quiz-1" }] },
    question_type := QuestionType.multiple_choice, quiz_id := some "quiz-1",
    seconds_to_answer := some 45 }

/-- A connected user. -/
def exUser : DbUser :=
  { user_id := "u-7", username := "pat", email := "pat@example.com",
    create_date := 0 }

/-- Session "s-1" of quiz "quiz-1", before the quiz starts. -/
def exWaiting : QuizData :=
  { session_id := "s-1", quiz_state := QuizState.WAITING_TO_START,
    quiz_id := "quiz-1", current_question_number := 0, current_question := none,
    questions := [exQuestion1, exQuestion2], current_question_end_timestamp := 0 }

/-- Session "s-1" while question 1 is live. -/
def exActive : QuizData :=
  { exWaiting with
    quiz_state := QuizState.ACTIVE
    current_question_number := 1
    current_question := some exQuestion1
    current_question_end_timestamp := 130 }

/-- Session "s-1" after question 1 timed out. -/
def exTimedOut : QuizData :=
  { exActive with quiz_state := QuizState.QUESTION_TIMEDOUT }

/-- Session "s-1" after the moderator ended the quiz. -/
def exEnded : QuizData :=
  { exActive with quiz_state := QuizState.ENDED }

/-- The Scenario A message:
`{"type":"moderator-choice","choice":{"option_type":"cmd","option":"Start Quiz"}}`. -/
def startQuizMessage : Message :=
  { type := some "moderator-choice"
    choice := some
      { option_type := some "cmd"
        option := some "Start Quiz"
        answer_id := none
        question_id := none
        quiz_id := none } }

/-- A synthesized `{"type":"timeout"}` message. -/
def timeoutMessage : Message :=
  { type := some "timeout", choice := none }

/-- A participant answer whose question-id ("zzz") matches no question of the
quiz while its quiz-id matches the session's quiz. -/
def unknownQuestionChoice : Choice :=
  { option_type := some "answer", option := none, answer_id := some "a1",
    question_id := some "zzz", quiz_id := some "quiz-1" }

/-- The message carrying unknownQuestionChoice. -/
def unknownQuestionMessage : Message :=
  { type := some "participant-choice", choice := some unknownQuestionChoice }

/-- A participant answer whose quiz-id and question-id match the running
session's quiz and question q1, but whose answer-id ("a9") matches no answer
option of q1. -/
def unknownAnswerChoice : Choice :=
  { option_type := some "answer", option := none, answer_id := some "a9",
    question_id := some "q1", quiz_id := some "quiz-1" }

/-- The message carrying unknownAnswerChoice. -/
def unknownAnswerMessage : Message :=
  { type := some "participant-choice", choice := some unknownAnswerChoice }

/-- A participant answer whose quiz-id ("other-quiz") differs from the
session's quiz_id (Scenario B). -/
def mismatchQuizChoice : Choice :=
  { option_type := some "answer", option := none, answer_id := some "a1",
    question_id := some "q1", quiz_id := some "other-quiz" }

/-- The message carrying mismatchQuizChoice. -/
def mismatchQuizMessage : Message :=
  { type := some "participant-choice", choice := some mismatchQuizChoice }

/-- The Quiz State exActive comes back as after a Store round trip: the
current question's quiz_id has been dropped. -/
def exActiveAfterRoundTrip : QuizData :=
  { exActive with current_question := some { exQuestion1 with quiz_id := none } }

/-- The names of a menu's options. -/
def menuOptionNames (menu : List MenuOption) : List String :=
  menu.map (fun o => o.option)

/-- Whether a payload was produced (rather than an exception raised). -/
def isOkB {α : Type} : Except PyExc α → Bool
  | Except.ok _ => true
  | Except.error _ => false

/-- The names of the moderator menu of a produced payload (empty when the
projector raised). -/
def payloadModMenu (r : Except PyExc Payload) : List String :=
  match r with
  | Except.ok p => menuOptionNames p.moderator_menu
  | Except.error _ => []

/-- The payload get_payload produces for the concrete Ended session. -/
def exEndedPayload : Payload :=
  { moderator_display_text := "Quiz Ended."
    participant_display_text := "Quiz Ended."
    moderator_menu := [cmdOption "End Quiz"]
    participant_menu := [cmdOption "Leave Quiz"]
    moderator_event := none
    participant_event := none
    quiz_data := exEnded.model_dump_json
    type := "end" }

/-- An "update" payload at the concrete waiting session, as produced for it
by get_payload. -/
def exWaitingPayload : Payload :=
  { moderator_display_text := "Quiz is waiting to start."
    participant_display_text := "Quiz is waiting to start."
    moderator_menu := [cmdOption "Start Quiz", cmdOption "End Quiz"]
    participant_menu := [cmdOption "Leave Quiz"]
    moderator_event := none
    participant_event := none
    quiz_data := exWaiting.model_dump_json
    type := "update" }

/-- A well-formed participant answer to question q1: ids and quiz-id all
match the running session exActive, and a1 is the correct option. -/
def validAnswerChoice : Choice :=
  { option_type := some "answer", option := none, answer_id := some "a1",
    question_id := some "q1", quiz_id := some "quiz-1" }

/-- The message carrying validAnswerChoice. -/
def validAnswerMessage : Message :=
  { type := some "participant-choice", choice := some validAnswerChoice }

/-- The answer row the first submission of user u-7 for (s-1, q1) stored. -/
def exStoredAnswer : UserAnswer :=
  { user_id := "u-7", question_id := "q1", answer_id := "a2", timestamp := 3,
    session_id := "s-1", quiz_id := "quiz-1", points := 10, is_correct := false }

/-- A second submission by the same user for the same session and question:
it collides with exStoredAnswer on the (session_id, user_id, question_id)
primary key. -/
def exDuplicateAnswer : UserAnswer :=
  { user_id := "u-7", question_id := "q1", answer_id := "a1", timestamp := 9,
    session_id := "s-1", quiz_id := "quiz-1", points := 10, is_correct := true }

/-! Helper lemmas shared by the claim theorems. -/

theorem handledQuizData_wrapServer (r : Except PyExc HandlerResult) (qd : QuizData) :
    handledQuizData (wrapServer r) qd = handledQuizData r qd := by
  cases r with
  | ok a => rfl
  | error e => rfl

theorem handledQuizData_wrapKeep (r : Except PyExc HandlerResult) (qd : QuizData) :
    handledQuizData (wrapServerKeepUserLeft r) qd = handledQuizData r qd := by
  cases r with
  | ok a => rfl
  | error e => cases e <;> rfl

theorem start_quiz_of_not_waiting (qd : QuizData) (ts : Nat)
    (h : qd.quiz_state ≠ QuizState.WAITING_TO_START) :
    qd.start_quiz ts = qd := by
  simp [QuizData.start_quiz, h]

theorem end_quiz_of_ended (qd : QuizData) (h : qd.quiz_state = QuizState.ENDED) :
    qd.end_quiz = qd := by
  cases qd
  simp_all [QuizData.end_quiz]

theorem next_question_of_ended (qd : QuizData) (ts : Nat)
    (h : qd.quiz_state = QuizState.ENDED) :
    qd.next_question ts = qd := by
  simp [QuizData.next_question, h]

theorem get_results_of_ended (qd : QuizData)
    (h : qd.quiz_state = QuizState.ENDED) :
    qd.get_results = qd := by
  simp [QuizData.get_results, h]

theorem handle_moderators_choice_of_ended (m : Message) (qd : QuizData)
    (ct : WsConnectionType) (u : DbUser) (ts : Nat)
    (h : qd.quiz_state = QuizState.ENDED) :
    handledQuizData (handle_moderators_choice m qd ct u ts) qd = qd := by
  unfold handle_moderators_choice handle_moderators_choice_body
  rw [handledQuizData_wrapServer]
  split
  · rfl
  · split
    · rfl
    · simp only [handledQuizData]
      split_ifs <;>
        simp [start_quiz_of_not_waiting qd ts (by simp [h]),
          end_quiz_of_ended qd h, next_question_of_ended qd ts h,
          get_results_of_ended qd h]

theorem handle_participent_choice_fixes_state (m : Message) (qd : QuizData)
    (ct : WsConnectionType) (u : DbUser) (ts : Nat) (tbl : List UserAnswer) :
    handledQuizData (handle_participent_choice m qd ct u ts tbl).1 qd = qd := by
  unfold handle_participent_choice
  dsimp only
  rw [handledQuizData_wrapKeep]
  split
  · rfl
  · split
    · rfl
    · split
      · rfl
      · split
        · split
          · rfl
          · split
            · rfl
            · split <;> rfl
        · rfl

theorem handle_timeout_of_not_active (m : Message) (qd : QuizData)
    (ct : WsConnectionType) (u : DbUser) (ts : Nat)
    (h : qd.quiz_state ≠ QuizState.ACTIVE) :
    handledQuizData (handle_timeout m qd ct u ts) qd = qd := by
  unfold handle_timeout
  dsimp only
  rw [handledQuizData_wrapServer]
  split
  · rfl
  · simp [handledQuizData, h]

/-! The claim theorems. -/

/-- C1: once a Quiz State is Ended no message handled through handle_message
mutates it — for every message, caller role, timestamp and answers table,
the quiz state an observer finds afterwards is the original one (the
moderator commands Start Quiz / Next Question / Go To Results leave an Ended
quiz untouched, End Quiz re-ends it without change, timeout only acts on an
Active quiz, and the participant handler never touches the quiz state). -/
theorem c1_ended_is_terminal (m : Message) (qd : QuizData)
    (ct : WsConnectionType) (u : DbUser) (ts : Nat) (tbl : List UserAnswer)
    (h : qd.quiz_state = QuizState.ENDED) :
    handledQuizData (handle_message m qd ct u ts tbl).1 qd = qd := by
  unfold handle_message
  dsimp only
  rw [handledQuizData_wrapServer]
  split_ifs with h1 h2 h3
  · exact handle_moderators_choice_of_ended m qd ct u ts h
  · exact handle_participent_choice_fixes_state m qd ct u ts tbl
  · exact handle_timeout_of_not_active m qd ct u ts (by simp [h])
  · rfl

/-- C1 witness: handling the moderator's Start Quiz message against the
concrete Ended session leaves it unchanged. -/
theorem c1_ended_is_terminal_witness :
    handledQuizData
      (handle_message startQuizMessage exEnded WsConnectionType.MODERATOR exUser 5 []).1
      exEnded = exEnded :=
  c1_ended_is_terminal startQuizMessage exEnded WsConnectionType.MODERATOR exUser 5 [] rfl

/-- C2: evaluating the code at the failing input.  A participant sending the
moderator-only Start Quiz command makes the handler body raise
Errors.USER_FORBIDDEN (the intended 403), but the observable outcome of
handle_message is Errors.ServerError (500): the `except Exception` clauses of
handle_moderators_choice and handle_message catch the Forbidden error and
re-raise ServerError, so the Forbidden error never reaches the caller. -/
theorem c2_forbidden_is_swallowed_into_server_error :
    handle_message startQuizMessage exWaiting WsConnectionType.PARTICIPANT exUser 7 []
        = (Except.error (PyExc.err Errors.ServerError), [])
      ∧ handle_moderators_choice_body startQuizMessage exWaiting
          WsConnectionType.PARTICIPANT exUser 7
        = Except.error (PyExc.err Errors.USER_FORBIDDEN)
      ∧ handle_moderators_choice startQuizMessage exWaiting
          WsConnectionType.PARTICIPANT exUser 7
        = Except.error (PyExc.err Errors.ServerError)
      ∧ Errors.USER_FORBIDDEN.status_code = 403
      ∧ Errors.ServerError.status_code = 500 :=
  ⟨rfl, rfl, rfl, rfl, rfl⟩

/-- C3 counterexample: a participant answer whose quiz-id matches the
session but whose question-id matches no question of the quiz does NOT score
as is_correct = false — `[...][0]` in answer_is_correct raises IndexError,
the handler surfaces Errors.ServerError, and no Participant Answer is
recorded (the answers table comes back empty). -/
theorem c3_unknown_question_id_errors :
    answer_is_correct unknownQuestionChoice exActive = Except.error PyExc.indexError
      ∧ handle_message unknownQuestionMessage exActive WsConnectionType.PARTICIPANT
          exUser 9 []
        = (Except.error (PyExc.err Errors.ServerError), []) :=
  ⟨rfl, rfl⟩

/-- C3 amended: scoring fails closed on a quiz-id mismatch and on an
answer-id matching no option of the matched question — in both cases
is_correct evaluates to false and the handler completes with the Participant
Answer recorded (conjuncts three and four prove the end-to-end run for each
case) — but an unknown question-id (with matching quiz-id) raises IndexError
inside answer_is_correct, so the handler fails with ServerError and records
nothing. -/
theorem c3_scoring_fails_closed_amended :
    (∀ (choice : Choice) (qd : QuizData),
      choice.quiz_id ≠ some qd.quiz_id →
      answer_is_correct choice qd = Except.ok false)
    ∧ (∀ (choice : Choice) (qd : QuizData) (q : DbQuestion) (rest : List DbQuestion),
      choice.quiz_id = some qd.quiz_id →
      qd.questions.filter (fun x => some x.question_id == choice.question_id)
        = q :: rest →
      (∀ a ∈ q.answers.answers, some a.answer_id ≠ choice.answer_id) →
      answer_is_correct choice qd = Except.ok false)
    ∧ (∀ (m : Message) (choice : Choice) (qd : QuizData) (cq : DbQuestion)
        (u : DbUser) (ts : Nat) (tbl : List UserAnswer) (qid aid : String),
      m.type = some "participant-choice" →
      m.choice = some choice →
      choice.option_type = some "answer" →
      choice.quiz_id ≠ some qd.quiz_id →
      qd.current_question = some cq →
      choice.question_id = some qid →
      choice.answer_id = some aid →
      handle_message m qd WsConnectionType.PARTICIPANT u ts tbl
        = (Except.ok (qd, some ("Participant " ++ u.user_id ++ " answered question"),
            none),
          insert_users_answer tbl
            { user_id := u.user_id
              question_id := qid
              answer_id := aid
              timestamp := ts
              session_id := qd.session_id
              quiz_id := qd.quiz_id
              points := cq.points
              is_correct := false }))
    ∧ (∀ (m : Message) (choice : Choice) (qd : QuizData) (cq q : DbQuestion)
        (rest : List DbQuestion) (u : DbUser) (ts : Nat) (tbl : List UserAnswer)
        (qid aid : String),
      m.type = some "participant-choice" →
      m.choice = some choice →
      choice.option_type = some "answer" →
      choice.quiz_id = some qd.quiz_id →
      qd.questions.filter (fun x => some x.question_id == choice.question_id)
        = q :: rest →
      (∀ a ∈ q.answers.answers, some a.answer_id ≠ choice.answer_id) →
      qd.current_question = some cq →
      choice.question_id = some qid →
      choice.answer_id = some aid →
      handle_message m qd WsConnectionType.PARTICIPANT u ts tbl
        = (Except.ok (qd, some ("Participant " ++ u.user_id ++ " answered question"),
            none),
          insert_users_answer tbl
            { user_id := u.user_id
              question_id := qid
              answer_id := aid
              timestamp := ts
              session_id := qd.session_id
              quiz_id := qd.quiz_id
              points := cq.points
              is_correct := false }))
    ∧ (∀ (m : Message) (choice : Choice) (qd : QuizData) (u : DbUser) (ts : Nat)
        (tbl : List UserAnswer),
      m.type = some "participant-choice" →
      m.choice = some choice →
      choice.option_type = some "answer" →
      choice.quiz_id = some qd.quiz_id →
      qd.questions.filter (fun x => some x.question_id == choice.question_id) = [] →
      handle_message m qd WsConnectionType.PARTICIPANT u ts tbl
        = (Except.error (PyExc.err Errors.ServerError), tbl)) := by
  have score_mismatch : ∀ (choice : Choice) (qd : QuizData),
      choice.quiz_id ≠ some qd.quiz_id →
      answer_is_correct choice qd = Except.ok false := by
    intro choice qd hmis
    simp [answer_is_correct, hmis]
  have score_unknown_answer : ∀ (choice : Choice) (qd : QuizData) (q : DbQuestion)
      (rest : List DbQuestion),
      choice.quiz_id = some qd.quiz_id →
      qd.questions.filter (fun x => some x.question_id == choice.question_id)
        = q :: rest →
      (∀ a ∈ q.answers.answers, some a.answer_id ≠ choice.answer_id) →
      answer_is_correct choice qd = Except.ok false := by
    intro choice qd q rest hq hfilter hnone
    have hfind : q.answers.answers.find?
        (fun a => some a.answer_id == choice.answer_id) = none := by
      rw [List.find?_eq_none]
      intro a ha
      simpa using hnone a ha
    simp [answer_is_correct, hq, hfilter, hfind]
  refine ⟨score_mismatch, score_unknown_answer, ?_, ?_, ?_⟩
  · intro m choice qd cq u ts tbl qid aid hmt hmc hot hmis hcq hqid haid
    have hcorrect := score_mismatch choice qd hmis
    unfold handle_message handle_participent_choice
    simp [hmt, hmc, hot, hcorrect, hcq, hqid, haid, wrapServer, wrapServerKeepUserLeft]
  · intro m choice qd cq q rest u ts tbl qid aid hmt hmc hot hq hfilter hnone
      hcq hqid haid
    have hcorrect := score_unknown_answer choice qd q rest hq hfilter hnone
    unfold handle_message handle_participent_choice
    simp [hmt, hmc, hot, hcorrect, hcq, hqid, haid, wrapServer, wrapServerKeepUserLeft]
  · intro m choice qd u ts tbl hmt hmc hot hq hfilter
    have hcorrect : answer_is_correct choice qd = Except.error PyExc.indexError := by
      simp [answer_is_correct, hq, hfilter]
    unfold handle_message handle_participent_choice
    simp [hmt, hmc, hot, hcorrect, wrapServer, wrapServerKeepUserLeft]

/-- C3 amended witness: at the concrete session — a participant answer with
mismatching quiz-id scores false and is recorded into the empty answers
table (Scenario B), and one with matching quiz-id and question-id but an
answer-id no option of q1 carries scores false and is recorded as well. -/
theorem c3_scoring_fails_closed_amended_witness :
    answer_is_correct mismatchQuizChoice exActive = Except.ok false
      ∧ handle_message mismatchQuizMessage exActive WsConnectionType.PARTICIPANT
          exUser 9 []
        = (Except.ok (exActive,
            some ("Participant " ++ exUser.user_id ++ " answered question"), none),
          insert_users_answer []
            { user_id := exUser.user_id
              question_id := "q1"
              answer_id := "a1"
              timestamp := 9
              session_id := exActive.session_id
              quiz_id := exActive.quiz_id
              points := exQuestion1.points
              is_correct := false })
      ∧ handle_message unknownAnswerMessage exActive WsConnectionType.PARTICIPANT
          exUser 9 []
        = (Except.ok (exActive,
            some ("Participant " ++ exUser.user_id ++ " answered question"), none),
          insert_users_answer []
            { user_id := exUser.user_id
              question_id := "q1"
              answer_id := "a9"
              timestamp := 9
              session_id := exActive.session_id
              quiz_id := exActive.quiz_id
              points := exQuestion1.points
              is_correct := false }) :=
  ⟨c3_scoring_fails_closed_amended.1 mismatchQuizChoice exActive (by decide),
    c3_scoring_fails_closed_amended.2.2.1 mismatchQuizMessage mismatchQuizChoice
      exActive exQuestion1 exUser 9 [] "q1" "a1" rfl rfl rfl (by decide) rfl rfl rfl,
    c3_scoring_fails_closed_amended.2.2.2.1 unknownAnswerMessage unknownAnswerChoice
      exActive exQuestion1 exQuestion1 [] exUser 9 [] "q1" "a9"
      rfl rfl rfl rfl rfl (by decide) rfl rfl rfl⟩

/-- C4: Scenario A — on a WaitingToStart session of a two-question quiz
whose first question is number 1 with s seconds to answer, the moderator's
Start Quiz message succeeds and yields the Active state on question 1 with
index 1 and deadline now + s. -/
theorem c4_start_quiz_scenario_a (qd : QuizData) (q1 q2 : DbQuestion)
    (u : DbUser) (ts s : Nat) (tbl : List UserAnswer)
    (hstate : qd.quiz_state = QuizState.WAITING_TO_START)
    (hqs : qd.questions = [q1, q2])
    (h1 : q1.question_number = 1)
    (hsec : q1.seconds_to_answer = some s) :
    handle_message startQuizMessage qd WsConnectionType.MODERATOR u ts tbl
      = (Except.ok
          ({ qd with
              quiz_state := QuizState.ACTIVE
              current_question_number := 1
              current_question := some q1
              current_question_end_timestamp := ts + s }, none, none), tbl) := by
  have hsq : qd.start_quiz ts
      = { qd with
          quiz_state := QuizState.ACTIVE
          current_question_number := 1
          current_question := some q1
          current_question_end_timestamp := ts + s } := by
    simp [QuizData.start_quiz, hstate, hqs, h1, hsec, List.find?]
  unfold handle_message handle_moderators_choice handle_moderators_choice_body
  simp [startQuizMessage, hsq, wrapServer]

/-- C4 witness: Scenario A at the concrete two-question session exWaiting —
Start Quiz at time 100 yields the Active state on question 1 with the
deadline 100 + 30. -/
theorem c4_start_quiz_scenario_a_witness :
    handle_message startQuizMessage exWaiting WsConnectionType.MODERATOR exUser 100 []
      = (Except.ok
          ({ exWaiting with
              quiz_state := QuizState.ACTIVE
              current_question_number := 1
              current_question := some exQuestion1
              current_question_end_timestamp := 100 + 30 }, none, none), []) :=
  c4_start_quiz_scenario_a exWaiting exQuestion1 exQuestion2 exUser 100 30 []
    rfl rfl rfl rfl

/-- C5 counterexample: the Store round trip is NOT the identity — on the
concrete Active session whose current question carries quiz_id "quiz-1",
writing and reading back returns a Quiz State whose current question has
quiz_id None (DbQuestion.model_dump_json never dumps quiz_id and
DbQuestion.get_from_cache never restores it), so the result differs from the
original. -/
theorem c5_round_trip_drops_question_quiz_id :
    CacheManager.storeRoundTrip exActive = Except.ok exActiveAfterRoundTrip
      ∧ exActiveAfterRoundTrip ≠ exActive :=
  ⟨rfl, by decide⟩

/-- C5 amended: for every Quiz State whose current question has pairwise
distinct answer ids (the invariant the AnswerOptions validator enforces),
the Store round trip preserves every field — session, state, quiz id, index,
the questions list, the deadline, and every answer option of the current
question with its correctness flag — EXCEPT the current question's quiz_id,
which comes back None. -/
theorem c5_round_trip_amended (qd : QuizData)
    (hu : qd.current_question.all
        (fun q => answerIdsUnique (DbQuestion.model_dump_json q).answers) = true) :
    CacheManager.storeRoundTrip qd
      = Except.ok
          { qd with current_question :=
              qd.current_question.map (fun q => { q with quiz_id := none }) } := by
  cases hcq : qd.current_question with
  | none =>
    cases qd
    simp_all [CacheManager.storeRoundTrip, CacheManager.get_quiz_data,
      QuizData.model_dump_json]
  | some q =>
    have hu' : answerIdsUnique (DbQuestion.model_dump_json q).answers = true := by
      rw [hcq] at hu
      simpa [Option.all] using hu
    have hrt : DbQuestion.get_from_cache (DbQuestion.model_dump_json q)
        = { q with quiz_id := none } := by
      cases q with
      | mk qid qtext qnum pts ans qt qz sec =>
        cases ans
        simp only [DbQuestion.get_from_cache, DbQuestion.model_dump_json,
          AnswerOptions.model_dump_json, List.map_map]
        congr 1
        congr 1
        exact List.map_id'' (fun a => rfl) _
    cases qd
    simp_all [CacheManager.storeRoundTrip, CacheManager.get_quiz_data,
      QuizData.model_dump_json]

/-- C5 amended witness: the round trip of the concrete Active session equals
the original with only the current question's quiz_id cleared. -/
theorem c5_round_trip_amended_witness :
    CacheManager.storeRoundTrip exActive
      = Except.ok
          { exActive with current_question :=
              exActive.current_question.map (fun q => { q with quiz_id := none }) } :=
  c5_round_trip_amended exActive rfl

theorem handle_message_timeout_eval (q : QuizData) (u : DbUser) (t : Nat)
    (tb : List UserAnswer) :
    handle_message timeoutMessage q WsConnectionType.MODERATOR u t tb
      = (Except.ok
          ((if q.quiz_state = QuizState.ACTIVE then q.timeout_question else q),
            none, none), tb) := rfl

/-- C6: the timeout transition is idempotent — handling a timeout message
(moderator role) against a QuestionTimedOut state returns the state
unchanged, and handling the same timeout event twice starting from an Active
state produces the same Quiz State as handling it once. -/
theorem c6_timeout_idempotent (qd qd2 : QuizData) (u : DbUser) (ts ts2 : Nat)
    (tbl tbl2 : List UserAnswer)
    (h1 : qd.quiz_state = QuizState.QUESTION_TIMEDOUT)
    (h2 : qd2.quiz_state = QuizState.ACTIVE) :
    handle_message timeoutMessage qd WsConnectionType.MODERATOR u ts tbl
        = (Except.ok (qd, none, none), tbl)
      ∧ handledQuizData
          (handle_message timeoutMessage
            (handledQuizData
              (handle_message timeoutMessage qd2 WsConnectionType.MODERATOR u ts tbl2).1
              qd2)
            WsConnectionType.MODERATOR u ts2 tbl2).1
          (handledQuizData
            (handle_message timeoutMessage qd2 WsConnectionType.MODERATOR u ts tbl2).1
            qd2)
        = handledQuizData
            (handle_message timeoutMessage qd2 WsConnectionType.MODERATOR u ts tbl2).1
            qd2 := by
  constructor
  · rw [handle_message_timeout_eval, if_neg (by simp [h1])]
  · have e1 : handledQuizData
        (handle_message timeoutMessage qd2 WsConnectionType.MODERATOR u ts tbl2).1 qd2
        = qd2.timeout_question := by
      rw [handle_message_timeout_eval, if_pos h2]
      rfl
    rw [e1, handle_message_timeout_eval,
      if_neg (show ¬(qd2.timeout_question.quiz_state = QuizState.ACTIVE) by
        simp [QuizData.timeout_question])]
    rfl

/-- C6 witness: at the concrete sessions — the timed-out session is left
unchanged by a timeout message, and timing out the Active session twice
equals timing it out once. -/
theorem c6_timeout_idempotent_witness :
    handle_message timeoutMessage exTimedOut WsConnectionType.MODERATOR exUser 11 []
        = (Except.ok (exTimedOut, none, none), [])
      ∧ handledQuizData
          (handle_message timeoutMessage
            (handledQuizData
              (handle_message timeoutMessage exActive WsConnectionType.MODERATOR exUser 11 []).1
              exActive)
            WsConnectionType.MODERATOR exUser 12 []).1
          (handledQuizData
            (handle_message timeoutMessage exActive WsConnectionType.MODERATOR exUser 11 []).1
            exActive)
        = handledQuizData
            (handle_message timeoutMessage exActive WsConnectionType.MODERATOR exUser 11 []).1
            exActive :=
  c6_timeout_idempotent exTimedOut exActive exUser 11 12 [] [] rfl rfl

/-- C7: connection validation — a participant connecting while the session's
Quiz State is not WaitingToStart is refused with
SESSION_CLOSED_FOR_NEW_PARTICIPANTS, whereas a moderator whose session
exists and whose user_id equals the session's registered moderator_id is
admitted with the session's Quiz State initialized, whatever the Store held
before. -/
theorem c7_connection_validation :
    (∀ (uid : String) (qd : QuizData) (dbs : Option DbSession)
        (qs : List DbQuestion),
      qd.quiz_state ≠ QuizState.WAITING_TO_START →
      validate_connection_and_initialize_cache (some uid) (some "participant")
          dbs qs (some qd)
        = Except.error (PyExc.err Errors.SESSION_CLOSED_FOR_NEW_PARTICIPANTS))
    ∧ (∀ (uid : String) (s : DbSession) (qs : List DbQuestion)
        (cached : Option QuizData),
      s.moderator_id = uid →
      validate_connection_and_initialize_cache (some uid) (some "moderator")
          (some s) qs cached
        = Except.ok (CacheManager.add_to_cache s qs)) := by
  constructor
  · intro uid qd dbs qs h
    simp [validate_connection_and_initialize_cache, WsConnectionType.ofHeader,
      h, Bind.bind, Except.bind]
  · intro uid s qs cached h
    simp [validate_connection_and_initialize_cache, WsConnectionType.ofHeader,
      h, Bind.bind, Except.bind, CacheManager.add_to_cache]

/-- C7 witness: at concrete inputs — a participant is refused on the Active
session, a moderator with the registered id is admitted with a freshly
initialized Quiz State even though the Store holds the Ended session. -/
theorem c7_connection_validation_witness :
    validate_connection_and_initialize_cache (some "u-9") (some "participant")
        none [] (some exActive)
      = Except.error (PyExc.err Errors.SESSION_CLOSED_FOR_NEW_PARTICIPANTS)
    ∧ validate_connection_and_initialize_cache (some "u-mod") (some "moderator")
        (some { quiz_id := "quiz-1", room_id := "r-1", session_id := "s-1",
                moderator_id := "u-mod", start_datetime := 0, end_datetime := none })
        [exQuestion1, exQuestion2] (some exEnded)
      = Except.ok (CacheManager.add_to_cache
          { quiz_id := "quiz-1", room_id := "r-1", session_id := "s-1",
            moderator_id := "u-mod", start_datetime := 0, end_datetime := none }
          [exQuestion1, exQuestion2]) :=
  ⟨c7_connection_validation.1 "u-9" exActive none [] (by decide),
    c7_connection_validation.2 "u-mod"
      { quiz_id := "quiz-1", room_id := "r-1", session_id := "s-1",
        moderator_id := "u-mod", start_datetime := 0, end_datetime := none }
      [exQuestion1, exQuestion2] (some exEnded) rfl⟩

theorem mod_menu_swap_core (n len : Nat) :
    (("Go To Results" ∈ menuOptionNames (get_active_mod_menu (n == len))) ↔ n = len)
    ∧ (("Next Question" ∈ menuOptionNames (get_active_mod_menu (n == len))) ↔ n ≠ len) := by
  by_cases h : n = len
  · simp [h, get_active_mod_menu, menuOptionNames, cmdOption]
  · have hb : (n == len) = false := by simp [h]
    simp [hb, h, get_active_mod_menu, menuOptionNames, cmdOption]

/-- C8: in the projector's Active and QuestionTimedOut outputs the moderator
menu offers "Go To Results" exactly when the current question index equals
the number of the quiz's questions, and "Next Question" exactly otherwise —
the index comparison is the only thing the swap depends on. -/
theorem c8_mod_menu_swap :
    (∀ (qd : QuizData) (me pe : Option String) (cq : DbQuestion),
      qd.quiz_state = QuizState.ACTIVE →
      qd.current_question = some cq →
      isOkB (get_payload qd me pe) = true
        ∧ (("Go To Results" ∈ payloadModMenu (get_payload qd me pe))
            ↔ qd.current_question_number = qd.questions.length)
        ∧ (("Next Question" ∈ payloadModMenu (get_payload qd me pe))
            ↔ qd.current_question_number ≠ qd.questions.length))
    ∧ (∀ (qd : QuizData) (me pe : Option String),
      qd.quiz_state = QuizState.QUESTION_TIMEDOUT →
      isOkB (get_payload qd me pe) = true
        ∧ (("Go To Results" ∈ payloadModMenu (get_payload qd me pe))
            ↔ qd.current_question_number = qd.questions.length)
        ∧ (("Next Question" ∈ payloadModMenu (get_payload qd me pe))
            ↔ qd.current_question_number ≠ qd.questions.length)) := by
  constructor
  · intro qd me pe cq h hcq
    have hgp : payloadModMenu (get_payload qd me pe)
        = menuOptionNames (get_active_mod_menu
            (qd.current_question_number == qd.questions.length)) := by
      simp [get_payload, h, hcq, wrapServer, payloadModMenu]
    refine ⟨by simp [get_payload, h, hcq, wrapServer, isOkB], ?_, ?_⟩
    · rw [hgp]
      exact (mod_menu_swap_core _ _).1
    · rw [hgp]
      exact (mod_menu_swap_core _ _).2
  · intro qd me pe h
    have hgp : payloadModMenu (get_payload qd me pe)
        = menuOptionNames (get_active_mod_menu
            (qd.current_question_number == qd.questions.length)) := by
      simp [get_payload, h, wrapServer, payloadModMenu]
    refine ⟨by simp [get_payload, h, wrapServer, isOkB], ?_, ?_⟩
    · rw [hgp]
      exact (mod_menu_swap_core _ _).1
    · rw [hgp]
      exact (mod_menu_swap_core _ _).2

/-- C8 witness: on the concrete Active session (question 1 of 2) the menu
offers "Next Question" and not "Go To Results", and on the same session
moved to the last question and timed out it offers "Go To Results". -/
theorem c8_mod_menu_swap_witness :
    (isOkB (get_payload exActive none none) = true
      ∧ (("Go To Results" ∈ payloadModMenu (get_payload exActive none none))
          ↔ exActive.current_question_number = exActive.questions.length)
      ∧ (("Next Question" ∈ payloadModMenu (get_payload exActive none none))
          ↔ exActive.current_question_number ≠ exActive.questions.length))
    ∧ (isOkB (get_payload exTimedOut none none) = true
      ∧ (("Go To Results" ∈ payloadModMenu (get_payload exTimedOut none none))
          ↔ exTimedOut.current_question_number = exTimedOut.questions.length)
      ∧ (("Next Question" ∈ payloadModMenu (get_payload exTimedOut none none))
          ↔ exTimedOut.current_question_number ≠ exTimedOut.questions.length)) :=
  ⟨c8_mod_menu_swap.1 exActive none none exQuestion1 rfl rfl,
    c8_mod_menu_swap.2 exTimedOut none none rfl⟩

/-- C9: role-specific views — every payload the projector produces carries
the full dump of the Quiz State as its quiz_data; when a current question is
set, that dump nests the question's dump, which lists every answer option
with its id and its correctness flag.  The redacted client dump of a
question is unchanged under replacing its answer options wholesale (so it
carries no answer or correctness information), the redacted client dump of a
Quiz State is unchanged under replacing the questions list and the deadline
(no question data beyond the current question), and dispatch_to_client
attaches the redacted view exactly on payloads of type "update". -/
theorem c9_role_views :
    (∀ (qd : QuizData) (me pe : Option String) (p : Payload),
      get_payload qd me pe = Except.ok p → p.quiz_data = qd.model_dump_json)
    ∧ (∀ (qd : QuizData) (cq : DbQuestion),
      qd.current_question = some cq →
      (qd.model_dump_json).current_question = some cq.model_dump_json
        ∧ (cq.model_dump_json).answers
            = cq.answers.answers.map AnswerOption.model_dump_json
        ∧ ∀ a ∈ cq.answers.answers,
            (AnswerOption.model_dump_json a).answer_id = a.answer_id
              ∧ (AnswerOption.model_dump_json a).correct_answer = a.correct_answer)
    ∧ (∀ (q : DbQuestion) (newAnswers : AnswerOptions),
      DbQuestion.client_model_dump_json { q with answers := newAnswers }
        = DbQuestion.client_model_dump_json q)
    ∧ (∀ (qd : QuizData) (newQuestions : List DbQuestion) (newDeadline : Nat),
      QuizData.client_model_dump_json
          { qd with
            questions := newQuestions
            current_question_end_timestamp := newDeadline }
        = QuizData.client_model_dump_json qd)
    ∧ (∀ (payload : Payload) (qd : QuizData) (ts : Nat),
      ((dispatch_to_client payload qd ts).quiz_state_view ≠ none
          ↔ payload.type = "update")
        ∧ (payload.type = "update" →
            (dispatch_to_client payload qd ts).quiz_state_view
              = some qd.client_model_dump_json)) := by
  refine ⟨?_, ?_, ?_, ?_, ?_⟩
  · intro qd me pe p hp
    cases hstate : qd.quiz_state <;>
      simp only [get_payload, hstate, wrapServer, Except.ok.injEq] at hp
    · rw [← hp]
    · cases hcq : qd.current_question <;>
        simp only [hcq, Except.ok.injEq] at hp
      · exact Except.noConfusion hp
      · rw [← hp]
    · rw [← hp]
    · rw [← hp]
    · rw [← hp]
  · intro qd cq hcq
    refine ⟨by simp [QuizData.model_dump_json, hcq], rfl, ?_⟩
    intro a _
    exact ⟨rfl, rfl⟩
  · intro q newAnswers
    rfl
  · intro qd newQuestions newDeadline
    rfl
  · intro payload qd ts
    constructor
    · by_cases ht : payload.type = "update" <;> simp [dispatch_to_client, ht]
    · intro ht
      simp [dispatch_to_client, ht]

/-- C9 witness: at concrete inputs — the Ended session's payload carries the
full state dump as quiz_data, the Active session's dump nests question 1's
dump with every answer's id and correctness flag, the redacted question view
is unchanged when its answers are stripped, the redacted state view is
unchanged when the questions list and deadline are replaced, and
dispatch_to_client attaches the redacted view to the concrete "update"
payload. -/
theorem c9_role_views_witness :
    exEndedPayload.quiz_data = exEnded.model_dump_json
      ∧ (exActive.model_dump_json).current_question
          = some exQuestion1.model_dump_json
      ∧ (∀ a ∈ exQuestion1.answers.answers,
          (AnswerOption.model_dump_json a).answer_id = a.answer_id
            ∧ (AnswerOption.model_dump_json a).correct_answer = a.correct_answer)
      ∧ DbQuestion.client_model_dump_json
          { exQuestion1 with answers := { answers := [] } }
          = DbQuestion.client_model_dump_json exQuestion1
      ∧ QuizData.client_model_dump_json
          { exActive with
            questions := []
            current_question_end_timestamp := 999 }
          = QuizData.client_model_dump_json exActive
      ∧ (dispatch_to_client exWaitingPayload exActive 7).quiz_state_view
          = some exActive.client_model_dump_json :=
  ⟨c9_role_views.1 exEnded none none exEndedPayload rfl,
    (c9_role_views.2.1 exActive exQuestion1 rfl).1,
    (c9_role_views.2.1 exActive exQuestion1 rfl).2.2,
    c9_role_views.2.2.1 exQuestion1 { answers := [] },
    c9_role_views.2.2.2.1 exActive [] 999,
    (c9_role_views.2.2.2.2 exWaitingPayload exActive 7).2 rfl⟩

/-- C10: persisting a Participant Answer never raises — insert_users_answer
is total and, because the quiz_participants_answers table's primary key is
(session_id, user_id, question_id), a second insert with the same key is
caught, logged and dropped: the table (and so the first stored row) is
unchanged.  Consequently the participant-choice handler, run with a table
that already holds the caller's answer for the same session and question,
still completes successfully as if the answer had been recorded, with the
table untouched. -/
theorem c10_duplicate_answer_swallowed :
    (∀ (tbl : List UserAnswer) (ua1 ua2 : UserAnswer),
      ua2.session_id = ua1.session_id →
      ua2.user_id = ua1.user_id →
      ua2.question_id = ua1.question_id →
      insert_users_answer (insert_users_answer tbl ua1) ua2
        = insert_users_answer tbl ua1)
    ∧ (∀ (m : Message) (choice : Choice) (qd : QuizData) (cq : DbQuestion)
        (u : DbUser) (ts : Nat) (tbl : List UserAnswer) (qid aid : String)
        (b : Bool),
      m.type = some "participant-choice" →
      m.choice = some choice →
      choice.option_type = some "answer" →
      qd.current_question = some cq →
      choice.question_id = some qid →
      choice.answer_id = some aid →
      answer_is_correct choice qd = Except.ok b →
      tbl.any (fun r => r.session_id == qd.session_id && r.user_id == u.user_id
          && r.question_id == qid) = true →
      handle_message m qd WsConnectionType.PARTICIPANT u ts tbl
        = (Except.ok (qd,
            some ("Participant " ++ u.user_id ++ " answered question"), none),
          tbl)) := by
  constructor
  · intro tbl ua1 ua2 h1 h2 h3
    simp only [insert_users_answer, h1, h2, h3]
    by_cases hin : tbl.any (fun r => r.session_id == ua1.session_id
        && r.user_id == ua1.user_id && r.question_id == ua1.question_id) = true
    · simp [hin]
    · simp only [hin, if_false, Bool.not_eq_true] at *
      simp [hin, List.any_append]
  · intro m choice qd cq u ts tbl qid aid b hmt hmc hot hcq hqid haid hcorrect hdup
    unfold handle_message handle_participent_choice
    simp [hmt, hmc, hot, hcq, hqid, haid, hcorrect, wrapServer,
      wrapServerKeepUserLeft, insert_users_answer, hdup]

/-- C10 witness: at the concrete session — re-inserting a duplicate of the
stored answer leaves the table as after the first insert, and the handler
run on a table already holding user u-7's answer for (s-1, q1) completes
successfully with the table unchanged. -/
theorem c10_duplicate_answer_swallowed_witness :
    insert_users_answer (insert_users_answer [] exStoredAnswer) exDuplicateAnswer
        = insert_users_answer [] exStoredAnswer
      ∧ handle_message validAnswerMessage exActive WsConnectionType.PARTICIPANT
          exUser 9 [exStoredAnswer]
        = (Except.ok (exActive,
            some ("Participant " ++ exUser.user_id ++ " answered question"), none),
          [exStoredAnswer]) :=
  ⟨c10_duplicate_answer_swallowed.1 [] exStoredAnswer exDuplicateAnswer rfl rfl rfl,
    c10_duplicate_answer_swallowed.2 validAnswerMessage validAnswerChoice exActive
      exQuestion1 exUser 9 [exStoredAnswer] "q1" "a1" true
      rfl rfl rfl rfl rfl rfl rfl rfl⟩

end QuizApp
